import Mathlib

/-!
# Verification of the MediLens file-ingestion and chat pipeline

Shallow embedding of the MediLens web client's core logic:

* `src/components/Modal.tsx` — upload validation (`handleFileValidation`)
  and text extraction (`extractTextFromFile`);
* `src/components/ChatbotPage.tsx` — the send-message pipeline
  (`simulateLLMResponse`, `handleSendMessage`) and the response formatter
  (`formatJsonResponse`, `formatObjectToText`);
* the persisted pipeline variant (chat sessions stored via
  `insertChatMessage` / `getChatMessages` from `src/lib/supabase.ts`).

Browser and network primitives (FileReader, TextDecoder, Tesseract OCR,
fetch) are modelled as explicit inputs: each embedded function takes the
outcome of the external call as an argument, and the TypeScript promise
rejection / exception discipline is modelled with `Except`.
-/

namespace Medilens

/-! ## Upload validation (`Modal.tsx`, `handleFileValidation`) -/

/-- A file as seen by the validator: name, declared MIME type, byte size.
Transient `UploadedFile` of the data model. -/
structure UploadedFile where
  name : String
  mime : String
  size : Nat
deriving Repr, DecidableEq

/-- `MAX_FILE_SIZE = 10 * 1024 * 1024` (Modal.tsx line 30). -/
def MAX_FILE_SIZE : Nat := 10 * 1024 * 1024

/-- `SUPPORTED_FILE_TYPES` (Modal.tsx lines 31-40). -/
def SUPPORTED_FILE_TYPES : List String :=
  ["application/pdf", "text/plain", "image/jpeg", "image/jpg",
   "image/png", "image/gif", "image/bmp", "image/webp"]

/-- Outcome of `handleFileValidation` before any extraction is attempted:
either an inline upload error was set and the handler returned, or
validation passed and the handler proceeds to `extractTextFromFile`. -/
inductive ValidationOutcome where
  | rejected (errorMsg : String)
  | proceed
deriving Repr, DecidableEq

/-- `handleFileValidation` (Modal.tsx lines 126-139): type check first,
then size check; each failure sets a descriptive error and returns. -/
def handleFileValidation (f : UploadedFile) : ValidationOutcome :=
  if ¬ SUPPORTED_FILE_TYPES.contains f.mime then
    .rejected "Supported file types: PDF, TXT, JPG, PNG, GIF, BMP, WebP"
  else if f.size > MAX_FILE_SIZE then
    .rejected "File size must be less than 10MB"
  else
    .proceed

/-! ## Text extraction (`Modal.tsx`, `extractTextFromFile`) -/

/-- The ASCII portion of the whitespace set trimmed by the JS
`String.prototype.trim` — all that can occur in the strings reaching a
`.trim()` call here. -/
def isJsWhitespace (c : Char) : Bool :=
  c = ' ' || c = '\t' || c = '\n' || c = '\r' || c = '\x0b' || c = '\x0c'

/-- JS `String.prototype.trim`: strip whitespace from both ends. -/
def jsTrim (s : String) : String :=
  String.mk (((s.data.dropWhile isJsWhitespace).reverse.dropWhile isJsWhitespace).reverse)

/-- JS `String.prototype.startsWith`. -/
def jsStartsWith (s p : String) : Bool :=
  List.isPrefixOf p.data s.data

/-- JS-printable test of the PDF branch: the regex `[^\x20-\x7E\n]`
replaces every character outside `0x20..0x7E` that is not a newline. -/
def isPdfPrintable (c : Char) : Bool :=
  (0x20 ≤ c.toNat && c.toNat ≤ 0x7E) || c = '\n'

/-- `text.replace(/[^\x20-\x7E\n]/g, ' ')` (Modal.tsx line 90). -/
def stripNonPrintable (s : String) : String :=
  String.mk (s.data.map fun c => if isPdfPrintable c then c else ' ')

/-- PDF placeholder resolved when too little printable text is found
(Modal.tsx line 94). -/
def pdfPlaceholder (name : String) : String :=
  "[PDF file: " ++ name ++ "]\n\nNote: This PDF may contain images or complex formatting. For better text extraction, please convert to image format or use a specialized PDF tool."

/-- The PDF branch of `extractTextFromFile` (Modal.tsx lines 85-99),
applied to the text obtained by `TextDecoder` from the raw bytes: the
source's `extractedText` local is `jsTrim (stripNonPrintable decoded)`,
written out at each use. -/
def pdfExtract (name decoded : String) : String :=
  if (jsTrim (stripNonPrintable decoded)).length > 50 then
    "[PDF Content Extracted from: " ++ name ++ "]\n\n" ++ jsTrim (stripNonPrintable decoded)
  else
    pdfPlaceholder name

/-- Image placeholder resolved when OCR finds no text (Modal.tsx line 114). -/
def imagePlaceholder (name : String) : String :=
  "[Image processed: " ++ name ++ "]\n\nNo readable text was found in this image. The image may be too blurry, have poor contrast, or contain no text content."

/-- Outcomes of the external reads `extractTextFromFile` depends on:
the FileReader text read, the FileReader array-buffer read (already
decoded by `TextDecoder`), and the Tesseract OCR call.  `Except.error`
is the corresponding `onerror` / `.catch` path. -/
structure ExtractionInputs where
  readText : Except String String
  readDecodedBuffer : Except String String
  ocr : Except String String
deriving Repr

/-- `extractTextFromFile` (Modal.tsx lines 70-124): dispatch on the MIME
type; a resolved promise is `Except.ok`, a rejected one `Except.error`
carrying the human-readable message built at the rejection site. -/
def extractTextFromFile (f : UploadedFile) (io : ExtractionInputs) : Except String String :=
  if f.mime = "text/plain" then
    match io.readText with
    | .ok text => .ok text
    | .error _ => .error "Failed to read text file"
  else if f.mime = "application/pdf" then
    match io.readDecodedBuffer with
    | .ok decoded => .ok (pdfExtract f.name decoded)
    | .error _ => .error "Failed to read PDF file"
  else if jsStartsWith f.mime "image/" then
    match io.ocr with
    | .ok text =>
        if jsTrim text ≠ "" then
          .ok ("[OCR Text Extracted from: " ++ f.name ++ "]\n\n" ++ jsTrim text)
        else
          .ok (imagePlaceholder f.name)
    | .error msg => .error ("Failed to extract text from image: " ++ msg)
  else
    .error "Unsupported file type for text extraction"

/-- The guarded composition performed by `handleFileValidation`
(Modal.tsx lines 126-156): extraction runs only after validation passes,
so a rejected file produces no `ExtractedText`. -/
def validateAndExtract (f : UploadedFile) (io : ExtractionInputs) :
    Option (Except String String) :=
  match handleFileValidation f with
  | .rejected _ => none
  | .proceed => some (extractTextFromFile f io)

/-! ## JSON values and the response formatter (`ChatbotPage.tsx`) -/

/-- Parsed JSON values, as produced by `JSON.parse` on a webhook
response body.  Numbers restricted to integers, which suffices for all
payloads appearing in the claims. -/
inductive Json where
  | str (s : String)
  | num (n : Int)
  | bool (b : Bool)
  | null
  | arr (items : List Json)
  | obj (fields : List (String × Json))

/-- JS truthiness of a parsed JSON value (`!result`, `data.result || …`). -/
def jsTruthy : Json → Bool
  | .str s => s ≠ ""
  | .num n => n ≠ 0
  | .bool b => b
  | .null => false
  | .arr _ => true
  | .obj _ => true

/-- `typeof v === 'object' && v !== null` for a parsed JSON value:
true exactly for arrays and objects (JS arrays have typeof 'object'). -/
def Json.isComposite : Json → Bool
  | .arr _ => true
  | .obj _ => true
  | _ => false

/-- Property access `data.k` on a parsed JSON value: `undefined`
(here `none`) when the value is not an object or lacks the key. -/
def jsonLookup (j : Json) (k : String) : Option Json :=
  match j with
  | .obj fields => fields.lookup k
  | _ => none

/-- JS template-literal coercion `${value}` for the primitive values the
formatter interpolates (the code only interpolates non-objects). -/
def jsToString : Json → String
  | .str s => s
  | .num n => toString n
  | .bool b => if b then "true" else "false"
  | .null => "null"
  | .arr _ => ""
  | .obj _ => ""

/-- `key.replace(/([A-Z])/g, ' $1')` (ChatbotPage.tsx line 257): a space
is inserted before every ASCII uppercase letter, including a leading one. -/
def camelSplit (s : String) : String :=
  String.mk (s.data.flatMap fun c => if c.isUpper then [' ', c] else [c])

/-- `.replace(/^./, str => str.toUpperCase())`: uppercase the first
character if any (uppercasing a space leaves it unchanged). -/
def upperFirst (s : String) : String :=
  match s.data with
  | [] => ""
  | c :: cs => String.mk (c.toUpper :: cs)

/-- The formatted key of `formatObjectToText` (ChatbotPage.tsx line 257). -/
def formattedKey (k : String) : String :=
  upperFirst (camelSplit k)

mutual

/-- `formatObjectToText` (ChatbotPage.tsx lines 244-273).  Arrays are
numbered; object entries render as `**Key:** value` lines, with composite
values recursively rendered under a bold header.  The source's
`else if (Array.isArray(value))` branch is unreachable (arrays already
satisfy the preceding `typeof value === 'object' && value !== null`), so
it has no counterpart here.  Primitive arguments never occur on the
guarded call paths; they render as the empty accumulator. -/
def formatObjectToText : Json → String
  | .arr items => jsTrim (formatArrayItems items 0)
  | .obj fields => jsTrim (formatObjectFields fields)
  | _ => ""

/-- `obj.forEach((item, index) => …)` of the array branch. -/
def formatArrayItems : List Json → Nat → String
  | [], _ => ""
  | item :: rest, index =>
      toString (index + 1) ++ ". " ++
        (if item.isComposite then formatObjectToText item else jsToString item) ++
        "\n" ++ formatArrayItems rest (index + 1)

/-- `Object.entries(obj).forEach(([key, value]) => …)` of the object branch. -/
def formatObjectFields : List (String × Json) → String
  | [] => ""
  | (key, value) :: rest =>
      (if value.isComposite then
        "**" ++ formattedKey key ++ ":**\n" ++ formatObjectToText value ++ "\n\n"
      else
        "**" ++ formattedKey key ++ ":** " ++ jsToString value ++ "\n") ++
      formatObjectFields rest

end

/-- `data.result || data.data || data.output || data.response || data`
(ChatbotPage.tsx line 224): first truthy field among the aliases,
falling back to the whole parsed value. -/
def pickResultField (data : Json) : Json :=
  match (jsonLookup data "result").filter jsTruthy with
  | some v => v
  | none =>
    match (jsonLookup data "data").filter jsTruthy with
    | some v => v
    | none =>
      match (jsonLookup data "output").filter jsTruthy with
      | some v => v
      | none =>
        match (jsonLookup data "response").filter jsTruthy with
        | some v => v
        | none => data

/-- `formatJsonResponse` (ChatbotPage.tsx lines 220-242). -/
def formatJsonResponse (data : Json) : String :=
  let result := pickResultField data
  if ¬ jsTruthy result then
    "No result data found in the response."
  else
    match result with
    | .str s => s
    | .arr items => formatObjectToText (.arr items)
    | .obj fields => formatObjectToText (.obj fields)
    | other => jsToString other

/-! ## The send-message pipeline (`ChatbotPage.tsx`) -/

/-- The webhook environment configuration (`VITE_N8N_WEBHOOK_URL`):
unset, set but rejected by `new URL(...)`, or a syntactically valid URL. -/
inductive WebhookConfig where
  | missing
  | invalidUrl (url : String)
  | valid (url : String)
deriving Repr, DecidableEq

/-- The body of a webhook response, according to whether `JSON.parse`
succeeds on the raw text. -/
inductive ResponseBody where
  | jsonBody (value : Json)
  | textBody (raw : String)

/-- Outcome of the `fetch` call to the webhook: the abort fired by the
30-second timer, a network-level rejection, a non-2xx status with its
body text, or a 2xx response with its body. -/
inductive WebhookOutcome where
  | timeout
  | networkError
  | httpError (status : Nat) (errorText : String)
  | success (body : ResponseBody)

/-- ChatbotPage.tsx line 99. -/
def notConfiguredMsg : String :=
  "N8N webhook URL not configured. Please set VITE_N8N_WEBHOOK_URL in your .env file."

/-- ChatbotPage.tsx line 107. -/
def invalidUrlMsg : String :=
  "Invalid webhook URL format. Please check your VITE_N8N_WEBHOOK_URL in .env file."

/-- ChatbotPage.tsx line 145 (the `AbortError` branch). -/
def timeoutErrorMsg : String :=
  "Request timeout: The webhook is taking too long to respond. Please check your n8n workflow."

/-- ChatbotPage.tsx line 150. -/
def networkErrorMsg (webhookUrl : String) : String :=
  "Network error: Cannot reach webhook URL. Please verify:\n1. The URL is correct: " ++ webhookUrl ++ "\n   - Try changing \x27/webhook-test/\x27 to \x27/webhook/\x27 if applicable\n   - Ensure the webhook ID is correct\n2. Your n8n instance is running and accessible\n3. The webhook endpoint exists and is enabled\n4. CORS is configured in n8n to allow requests from localhost:5173"

/-- ChatbotPage.tsx line 166. -/
def http404Msg : String :=
  "Webhook not found (404): The webhook URL may be incorrect or the endpoint doesn\x27t exist.\nTry:\n1. Check if URL should use \x27/webhook/\x27 instead of \x27/webhook-test/\x27\n2. Verify the webhook ID in your n8n workflow\n3. Ensure the webhook is activated in n8n"

/-- ChatbotPage.tsx line 168. -/
def http500Msg : String :=
  "Workflow error (500): There\x27s an error in your n8n workflow.\nSteps to fix:\n1. Go to your n8n instance\n2. Check the \x27Executions\x27 tab\n3. Look for failed executions\n4. Review the error details in the execution log\n5. Common issues: missing nodes, incorrect data mapping, or authentication problems"

/-- ChatbotPage.tsx line 170. -/
def http403Msg : String :=
  "Access forbidden (403): Check your n8n webhook authentication settings.\nEnsure:\n1. Webhook authentication is disabled for testing\n2. CORS is properly configured\n3. No IP restrictions are blocking localhost"

/-- `simulateLLMResponse` (ChatbotPage.tsx lines 93-198): every failure
mode throws (here: `Except.error`) with its specific message; a 2xx
response is parsed as JSON when possible and formatted, otherwise the
raw text stands in (empty raw text degrades to a fixed notice). -/
def simulateLLMResponse (cfg : WebhookConfig) (outcome : WebhookOutcome) :
    Except String String :=
  match cfg with
  | .missing => .error notConfiguredMsg
  | .invalidUrl _ => .error invalidUrlMsg
  | .valid url =>
    match outcome with
    | .timeout => .error timeoutErrorMsg
    | .networkError => .error (networkErrorMsg url)
    | .httpError status errorText =>
        if status = 404 then .error http404Msg
        else if status = 500 then .error http500Msg
        else if status = 403 then .error http403Msg
        else .error ("HTTP error " ++ toString status ++ ": " ++ errorText)
    | .success (.textBody raw) =>
        .ok (if raw = "" then "Received response from workflow but could not parse it." else raw)
    | .success (.jsonBody value) => .ok (formatJsonResponse value)

/-- `getContextSpecificPayload` (ChatbotPage.tsx lines 200-206). -/
def getContextSpecificPayload (userMessage context : String) : Json :=
  .obj [("message", .str userMessage), ("context", .str context)]

/-- The JSON body posted by `simulateLLMResponse` (ChatbotPage.tsx lines
112-118): the context payload sits under a top-level `data` field. -/
def buildWebhookPayload (userMessage context userEmail userName timestamp : String) : Json :=
  .obj [("data", getContextSpecificPayload userMessage context),
        ("userEmail", .str userEmail),
        ("userName", .str userName),
        ("timestamp", .str timestamp),
        ("source", .str "medilens-chatbot")]

/-- The JSON body posted by the persisted pipeline variant
(`src/unnamed/part_003` lines 252-256). -/
def buildPersistedPayload (userMessage : String) (attachmentType : Option String)
    (currentSessionId : Option String) : Json :=
  .obj [("message", .str userMessage),
        ("attachment", .str (match attachmentType with
          | some a => if a = "" then "text" else a
          | none => "text")),
        ("sessionid", .str (match currentSessionId with
          | some s => if s = "" then "unknown" else s
          | none => "unknown"))]

/-- Top-level field names of a JSON object body. -/
def topLevelKeys : Json → List String
  | .obj fields => fields.map Prod.fst
  | _ => []

/-- Message author: the `type` field of a chat message. -/
inductive MsgKind where
  | user
  | bot
deriving Repr, DecidableEq

/-- A chat message as displayed by the non-persisted ChatbotPage. -/
structure DisplayMsg where
  id : Nat
  type : MsgKind
  content : String
  isLoading : Bool
deriving Repr, DecidableEq

/-- Local state of the non-persisted ChatbotPage relevant to sending:
the transcript, the input box, the in-flight flag, and the current value
of `Date.now()` (strictly greater than every id already handed out). -/
structure ChatState where
  messages : List DisplayMsg
  inputMessage : String
  isLoading : Bool
  now : Nat
deriving Repr

/-- The fixed apology bubble of the `catch` in `handleSendMessage`
(ChatbotPage.tsx line 309). -/
def botErrorBubble : String :=
  "I apologize, but I encountered an error processing your request. Please try again or contact support if the issue persists."

/-- The value the loading bubble is resolved with: the reply on success,
the fixed apology of the `catch` block on any failure. -/
def settleReply : Except String String → String
  | .ok r => r
  | .error _ => botErrorBubble

/-- `handleSendMessage` (ChatbotPage.tsx lines 274-317): guard, append
the user message and a loading bubble, call the webhook, then replace
the loading bubble with the reply — or, in the `catch`, with the fixed
apology — and clear `isLoading`. -/
def handleSendMessage (st : ChatState) (cfg : WebhookConfig)
    (outcome : WebhookOutcome) : ChatState :=
  if jsTrim st.inputMessage = "" ∨ st.isLoading = true then st
  else
    let content := jsTrim st.inputMessage
    let userMsg : DisplayMsg := ⟨st.now, .user, content, false⟩
    let loadingMsg : DisplayMsg := ⟨st.now + 1, .bot, "", true⟩
    let pending := st.messages ++ [userMsg, loadingMsg]
    let reply := settleReply (simulateLLMResponse cfg outcome)
    { messages := pending.map fun m =>
        if m.id = loadingMsg.id then { m with content := reply, isLoading := false } else m,
      inputMessage := "",
      isLoading := false,
      now := st.now + 2 }

/-! ## Chat store (`src/lib/supabase.ts`) and the persisted pipeline
(`src/unnamed/part_003`) -/

/-- A row of the `chat_messages` relation.  `created_at` is a logical
timestamp: the database assigns `now()` at insertion, so later inserts
carry strictly larger values. -/
structure StoredMessage where
  session_id : String
  type : MsgKind
  content : String
  attachment_type : Option String
  created_at : Nat
deriving Repr, DecidableEq

/-- The chat-message store: its rows in insertion order, and the clock
used as the `created_at` of the next insert. -/
structure Store where
  rows : List StoredMessage
  clock : Nat
deriving Repr

/-- `insertChatMessage` (supabase.ts lines 138-171): append one row
with the current timestamp. -/
def Store.insertChatMessage (st : Store) (sid : String) (ty : MsgKind)
    (content : String) (att : Option String) : Store :=
  { rows := st.rows ++ [⟨sid, ty, content, att, st.clock⟩],
    clock := st.clock + 1 }

/-- `getChatMessages` (supabase.ts lines 173-196): the rows of one
session, ordered ascending by `created_at`. -/
def Store.getChatMessages (st : Store) (sid : String) : List StoredMessage :=
  List.insertionSort (fun a b => a.created_at ≤ b.created_at)
    (st.rows.filter fun m => m.session_id = sid)

/-- Timestamps are strictly increasing along the rows and below the
clock — true of any store built by `insertChatMessage` from empty. -/
def Store.WF (st : Store) : Prop :=
  st.rows.Pairwise (fun a b => a.created_at < b.created_at) ∧
  ∀ m ∈ st.rows, m.created_at < st.clock

/-- A chat message as displayed by the persisted ChatbotPage variant
(part_003 `Message`), including the optional attachment tag. -/
structure PMessage where
  id : Nat
  type : MsgKind
  content : String
  isLoading : Bool
  attachmentType : Option String
deriving Repr, DecidableEq

/-- Local state of the persisted ChatbotPage variant relevant to
sending.  `now` models `Date.now()`, strictly greater than every id
already handed out. -/
structure PersistedChatState where
  messages : List PMessage
  inputMessage : String
  extractedText : String
  isLoading : Bool
  currentSessionId : Option String
  now : Nat
deriving Repr

/-- `const messageToSend = extractedText || inputMessage.trim()`
(part_003 line 362): non-empty extracted text takes priority. -/
def messageToSend (ls : PersistedChatState) : String :=
  if ls.extractedText ≠ "" then ls.extractedText else jsTrim ls.inputMessage

/-- `const attachmentType = extractedText ? 'image' : 'text'`
(part_003 line 365). -/
def attachmentTypeOf (ls : PersistedChatState) : String :=
  if ls.extractedText ≠ "" then "image" else "text"

/-- `handleSendMessage` of the persisted variant (part_003 lines
361-439): guard; append the user message and a loading bubble; clear
the input box and the extracted-text buffer; persist the user message
when a session id is current; call the webhook; replace the loading
bubble with the reply or, in the `catch`, with the fixed apology; and
persist that bot message likewise.  `resp` is the settled promise of
`simulateLLMResponse`. -/
def handleSendMessagePersisted (ls : PersistedChatState) (store : Store)
    (resp : Except String String) : PersistedChatState × Store :=
  let content := messageToSend ls
  if content = "" ∨ ls.isLoading = true then (ls, store)
  else
    let att := attachmentTypeOf ls
    let userMsg : PMessage := ⟨ls.now, .user, content, false, some att⟩
    let loadingMsg : PMessage := ⟨ls.now + 1, .bot, "", true, none⟩
    let pending := ls.messages ++ [userMsg, loadingMsg]
    let store1 :=
      match ls.currentSessionId with
      | some sid => store.insertChatMessage sid .user content (some att)
      | none => store
    let reply := settleReply resp
    let store2 :=
      match ls.currentSessionId with
      | some sid => store1.insertChatMessage sid .bot reply none
      | none => store1
    ({ messages := pending.map fun m =>
         if m.id = loadingMsg.id then { m with content := reply, isLoading := false } else m,
       inputMessage := "",
       extractedText := "",
       isLoading := false,
       currentSessionId := ls.currentSessionId,
       now := ls.now + 2 }, store2)

/-- `handleFileUpload` (part_003 lines 441-444): stash the extracted
text and clear the typed input. -/
def handleFileUpload (ls : PersistedChatState) (text : String) : PersistedChatState :=
  { ls with extractedText := text, inputMessage := "" }

/-- The transcript a reader sees: author and content, in order. -/
def transcript (msgs : List PMessage) : List (MsgKind × String) :=
  msgs.map fun m => (m.type, m.content)

/-- The same projection for replayed store rows. -/
def storedTranscript (rows : List StoredMessage) : List (MsgKind × String) :=
  rows.map fun m => (m.type, m.content)

/-! ## Environment configuration (`supabase.ts`, `part_000` App) -/

/-- The backend client singleton of supabase.ts lines 3-9:
`supabaseUrl && supabaseAnonKey ? createClient(...) : null`, with an
unset or empty environment variable being falsy. -/
structure SupabaseClient where
  url : String
  anonKey : String
deriving Repr, DecidableEq

/-- JS truthiness of an environment variable (`undefined` or `""` falsy). -/
def envTruthy : Option String → Bool
  | none => false
  | some s => s ≠ ""

/-- The module-level client: `null` (here `none`) when either variable
is absent or empty. -/
def mkSupabaseClient (url anonKey : Option String) : Option SupabaseClient :=
  if envTruthy url && envTruthy anonKey then
    some ⟨url.getD "", anonKey.getD ""⟩
  else
    none

/-- `insertUserActivity` (supabase.ts lines 42-77), with the uncaught
exception channel made explicit: the null-client guard returns `null`
after a console warning, and database failures are caught and logged,
so the helper never throws.  `dbResult` is the outcome of the insert
issued when a client exists. -/
def insertUserActivity (client : Option SupabaseClient)
    (dbResult : Except String String) : Except String (Option String) :=
  match client with
  | none => .ok none
  | some _ =>
    match dbResult with
    | .ok rowId => .ok (some rowId)
    | .error _ => .ok none

/-- The console warning emitted by every null-client guard in supabase.ts. -/
def supabaseNotConfiguredWarning : String :=
  "Supabase not configured. Please set VITE_SUPABASE_URL and VITE_SUPABASE_ANON_KEY environment variables."

/-- The auth-change subscription of the App component in
`src/unnamed/part_000` lines 44-61: `supabase.auth.onAuthStateChange(...)`
is evaluated without a null-client guard, so on a null client the member
access `.auth` throws a TypeError at module-effect time. -/
def appRegisterAuthListener (client : Option SupabaseClient) : Except String Unit :=
  match client with
  | some _ => .ok ()
  | none => .error "TypeError: Cannot read properties of null (reading \x27auth\x27)"

/-- Containment of `needle` as a contiguous run inside `hay`. -/
def listContains (needle : List Char) : List Char → Bool
  | [] => needle.isPrefixOf []
  | c :: rest => needle.isPrefixOf (c :: rest) || listContains needle rest

/-- Substring containment, used to state the formatter claims. -/
def strContains (hay needle : String) : Bool :=
  listContains needle.data hay.data

/-! ## Helper lemmas -/

/-- A string whose character list is non-empty is not the empty string. -/
theorem ne_empty_of_data_ne (s : String) (h : s.data ≠ []) : s ≠ "" := by
  intro he
  subst he
  exact h rfl

/-- An append whose left part has characters has characters. -/
theorem appendData_ne_nil (a b : String) (h : a.data ≠ []) : (a ++ b).data ≠ [] := by
  rw [String.data_append]
  intro hc
  exact h (List.append_eq_nil.mp hc).1

/-- An append whose left part has characters is not the empty string. -/
theorem strAppend_ne_empty (s t : String) (h : s.data ≠ []) : s ++ t ≠ "" :=
  ne_empty_of_data_ne _ (appendData_ne_nil s t h)

/-- The no-readable-text placeholder is never the empty string. -/
theorem imagePlaceholder_ne_empty (name : String) : imagePlaceholder name ≠ "" := by
  unfold imagePlaceholder
  exact strAppend_ne_empty _ _ (appendData_ne_nil _ _ (by decide))

/-- `pdfExtract` always resolves with a bracketed header, never `""`. -/
theorem pdfExtract_ne_empty (name decoded : String) : pdfExtract name decoded ≠ "" := by
  unfold pdfExtract
  by_cases hlen : (jsTrim (stripNonPrintable decoded)).length > 50
  · rw [if_pos hlen]
    exact strAppend_ne_empty _ _ (appendData_ne_nil _ _ (appendData_ne_nil _ _ (by decide)))
  · rw [if_neg hlen]
    unfold pdfPlaceholder
    exact strAppend_ne_empty _ _ (appendData_ne_nil _ _ (by decide))

/-! ## Claims -/

/-- C1: a file whose MIME type is outside the allow-list or whose size
exceeds 10 MB is rejected by `handleFileValidation` with a descriptive
error, and `extractTextFromFile` is never invoked, so no extracted text
is produced.  The second disjunct alone suffices for rejection, so an
oversized file is rejected regardless of its MIME type. -/
theorem c1_validation_blocks_extraction (f : UploadedFile) (io : ExtractionInputs)
    (h : f.mime ∉ SUPPORTED_FILE_TYPES ∨ MAX_FILE_SIZE < f.size) :
    validateAndExtract f io = none ∧
    ∃ e, handleFileValidation f = ValidationOutcome.rejected e := by
  have hrej : ∃ e, handleFileValidation f = ValidationOutcome.rejected e := by
    unfold handleFileValidation
    by_cases hm : SUPPORTED_FILE_TYPES.contains f.mime
    · rcases h with h | h
      · exact absurd (by simpa using hm) h
      · rw [if_neg (not_not_intro hm), if_pos h]
        exact ⟨_, rfl⟩
    · rw [if_pos hm]
      exact ⟨_, rfl⟩
  obtain ⟨e, he⟩ := hrej
  refine ⟨?_, ⟨e, he⟩⟩
  unfold validateAndExtract
  rw [he]

/-- Witness for C1: a 10 MB + 1 byte PNG — an allow-listed type — is
rejected and yields no extraction result. -/
theorem c1_validation_blocks_extraction_witness :
    validateAndExtract ⟨"big.png", "image/png", 10485761⟩
        ⟨Except.ok "", Except.ok "", Except.ok ""⟩ = none ∧
    ∃ e, handleFileValidation ⟨"big.png", "image/png", 10485761⟩ =
      ValidationOutcome.rejected e :=
  c1_validation_blocks_extraction _ _ (Or.inr (by norm_num [MAX_FILE_SIZE]))

/-- C6: for a PDF file whose decoded, non-printable-stripped text is
below the 50-character heuristic, extraction resolves with the
images/complex-formatting placeholder instead of the stripped text; and
the stripping replaces every non-printable character, so the stripped
text is printable throughout. -/
theorem c6_pdf_short_text_placeholder (f : UploadedFile) (io : ExtractionInputs)
    (decoded : String)
    (hmime : f.mime = "application/pdf")
    (hread : io.readDecodedBuffer = Except.ok decoded)
    (hshort : (jsTrim (stripNonPrintable decoded)).length < 50) :
    extractTextFromFile f io = Except.ok (pdfPlaceholder f.name) ∧
    ∀ c ∈ (stripNonPrintable decoded).data, isPdfPrintable c = true := by
  constructor
  · unfold extractTextFromFile
    rw [hmime, if_neg (by decide), if_pos rfl, hread]
    dsimp only
    unfold pdfExtract
    rw [if_neg (by omega)]
  · intro c hc
    unfold stripNonPrintable at hc
    simp only [String.data] at hc
    obtain ⟨a, _, rfl⟩ := List.mem_map.mp hc
    by_cases h : isPdfPrintable a
    · rwa [if_pos h]
    · rw [if_neg h]; decide

/-- Witness for C6: a short garbage PDF body resolves with the placeholder. -/
theorem c6_pdf_short_text_placeholder_witness :
    extractTextFromFile ⟨"scan.pdf", "application/pdf", 7⟩
        ⟨Except.ok "", Except.ok "x\x00y", Except.ok ""⟩ =
      Except.ok (pdfPlaceholder "scan.pdf") ∧
    ∀ c ∈ (stripNonPrintable "x\x00y").data, isPdfPrintable c = true :=
  c6_pdf_short_text_placeholder _ _ "x\x00y" rfl rfl (by decide)

set_option maxRecDepth 4096

/-- C3 counterexample: an empty but perfectly valid plain-text file
passes validation, and `extractTextFromFile` resolves with the empty
string — neither content, nor a placeholder, nor an error. -/
theorem c3_counterexample_empty_text_file :
    handleFileValidation ⟨"empty.txt", "text/plain", 0⟩ = ValidationOutcome.proceed ∧
    extractTextFromFile ⟨"empty.txt", "text/plain", 0⟩
        ⟨Except.ok "", Except.ok "", Except.ok ""⟩ = Except.ok "" := by
  constructor
  · rfl
  · rfl

/-- C3 amended: for every validated file that is not a plain-text file
(PDF or image), extraction never resolves with the empty string — it
yields prefixed content, an explicit placeholder, or a rejection with a
human-readable message; a plain-text file resolves with the file content
verbatim, which is empty exactly when the file is. -/
theorem c3_no_silent_empty_except_text_verbatim (f : UploadedFile) (io : ExtractionInputs) :
    (f.mime ≠ "text/plain" → extractTextFromFile f io ≠ Except.ok "") ∧
    (f.mime = "text/plain" → ∀ t, io.readText = Except.ok t →
      extractTextFromFile f io = Except.ok t) := by
  constructor
  · intro hmime hok
    unfold extractTextFromFile at hok
    rw [if_neg hmime] at hok
    by_cases hpdf : f.mime = "application/pdf"
    · rw [if_pos hpdf] at hok
      cases hrd : io.readDecodedBuffer with
      | ok d =>
          rw [hrd] at hok
          exact pdfExtract_ne_empty f.name d (Except.ok.inj hok)
      | error e => rw [hrd] at hok; exact Except.noConfusion hok
    · rw [if_neg hpdf] at hok
      by_cases himg : jsStartsWith f.mime "image/"
      · rw [if_pos himg] at hok
        cases hoc : io.ocr with
        | ok t =>
            rw [hoc] at hok
            dsimp only at hok
            by_cases ht : jsTrim t ≠ ""
            · rw [if_pos ht] at hok
              refine strAppend_ne_empty _ _ ?_ (Except.ok.inj hok)
              exact appendData_ne_nil _ _ (appendData_ne_nil _ _ (by decide))
            · rw [if_neg ht] at hok
              exact imagePlaceholder_ne_empty f.name (Except.ok.inj hok)
        | error e => rw [hoc] at hok; exact Except.noConfusion hok
      · rw [if_neg himg] at hok; exact Except.noConfusion hok
  · intro hmime t ht
    unfold extractTextFromFile
    rw [if_pos hmime, ht]

/-- Witness for C3 amended: an image whose OCR yields nothing resolves
with the no-readable-text placeholder, not the empty string; a "hello"
text file resolves with exactly "hello". -/
theorem c3_no_silent_empty_except_text_verbatim_witness :
    (extractTextFromFile ⟨"scan.png", "image/png", 4⟩
        ⟨Except.ok "", Except.ok "", Except.ok ""⟩ ≠ Except.ok "") ∧
    extractTextFromFile ⟨"note.txt", "text/plain", 5⟩
        ⟨Except.ok "hello", Except.ok "", Except.ok ""⟩ = Except.ok "hello" :=
  ⟨(c3_no_silent_empty_except_text_verbatim ⟨"scan.png", "image/png", 4⟩
      ⟨Except.ok "", Except.ok "", Except.ok ""⟩).1 (by decide),
   (c3_no_silent_empty_except_text_verbatim ⟨"note.txt", "text/plain", 5⟩
      ⟨Except.ok "hello", Except.ok "", Except.ok ""⟩).2 rfl "hello" rfl⟩

/-- The webhook response value of the C5 test case:
`{"result": {"Dosage": "500mg", "Warnings": ["avoid alcohol"]}}`. -/
def c5ResponseValue : Json :=
  .obj [("result", .obj [("Dosage", .str "500mg"),
                         ("Warnings", .arr [.str "avoid alcohol"])])]

/-- C5 counterexample: for the response
`{"result": {"Dosage": "500mg", "Warnings": ["avoid alcohol"]}}` the
formatter output does NOT contain the literal substring "Dosage: 500mg":
the key is wrapped in bold markers and prefixed with a space by the
camel-case splitter, rendering as "** Dosage:** 500mg". -/
theorem c5_counterexample_no_plain_dosage_substring :
    strContains (formatJsonResponse c5ResponseValue) "Dosage: 500mg" = false := by
  decide

/-- C5 amended: the formatter output for that response is exactly
"** Dosage:** 500mg\n** Warnings:**\n1. avoid alcohol" — the 500mg value
follows the bold-wrapped, space-prefixed Dosage key (literal substring
"Dosage:** 500mg"), and the numbered line "1. avoid alcohol" appears
directly under the "** Warnings:**" heading. -/
theorem c5_formatter_output_shape :
    formatJsonResponse c5ResponseValue =
      "** Dosage:** 500mg\n** Warnings:**\n1. avoid alcohol" ∧
    strContains (formatJsonResponse c5ResponseValue) "Dosage:** 500mg" = true ∧
    strContains (formatJsonResponse c5ResponseValue) "** Warnings:**\n1. avoid alcohol" = true := by
  refine ⟨rfl, by decide, by decide⟩

/-- C10: `formatJsonResponse` takes the `result` field when it is
truthy; when every alias field (`result`, `data`, `output`, `response`)
is absent or falsy it falls back to the whole parsed object, so a falsy
`result` (e.g. `{"result": ""}`) is skipped and the entire object is
formatted — never yielding the empty string for such an input. -/
theorem c10_first_truthy_alias_else_whole_object (data rv : Json)
    (hr : jsonLookup data "result" = some rv)
    (hrf : jsTruthy rv = false)
    (hd : ∀ v, jsonLookup data "data" = some v → jsTruthy v = false)
    (ho : ∀ v, jsonLookup data "output" = some v → jsTruthy v = false)
    (hp : ∀ v, jsonLookup data "response" = some v → jsTruthy v = false) :
    pickResultField data = data ∧
    (∀ d r, jsonLookup d "result" = some r → jsTruthy r = true →
      pickResultField d = r) ∧
    formatJsonResponse (Json.obj [("result", Json.str "")]) = "**Result:**" := by
  have hfilter : ∀ (o : Option Json), (∀ v, o = some v → jsTruthy v = false) →
      o.filter jsTruthy = none := by
    intro o h
    cases o with
    | none => rfl
    | some v => simp [Option.filter, h v rfl]
  refine ⟨?_, ?_, rfl⟩
  · unfold pickResultField
    rw [hr, show (some rv).filter jsTruthy = none by simp [Option.filter, hrf],
        hfilter _ hd, hfilter _ ho, hfilter _ hp]
  · intro d r hdr htr
    unfold pickResultField
    rw [hdr]
    simp [Option.filter, htr]

/-- Witness for C10: with `{"result": ""}` the falsy `result` is skipped,
the whole object is picked, and the rendering "**Result:**" is non-empty. -/
theorem c10_first_truthy_alias_else_whole_object_witness :
    pickResultField (Json.obj [("result", Json.str "")]) =
      Json.obj [("result", Json.str "")] ∧
    (∀ d r, jsonLookup d "result" = some r → jsTruthy r = true →
      pickResultField d = r) ∧
    formatJsonResponse (Json.obj [("result", Json.str "")]) = "**Result:**" :=
  c10_first_truthy_alias_else_whole_object
    (Json.obj [("result", Json.str "")]) (Json.str "") rfl rfl
    (fun _ h => Option.noConfusion h)
    (fun _ h => Option.noConfusion h)
    (fun _ h => Option.noConfusion h)

/-- C4 counterexample: the body built by the main pipeline for a
concrete message has top-level fields
`data, userEmail, userName, timestamp, source` — `message` is NOT a
top-level field (it sits nested inside `data`), and the persisted
variant posts `message, attachment, sessionid` instead of the claimed
shape. -/
theorem c4_counterexample_payload_shape :
    topLevelKeys (buildWebhookPayload "hello" "question" "user@example.com"
        "User" "2025-01-01T00:00:00.000Z") =
      ["data", "userEmail", "userName", "timestamp", "source"] ∧
    (topLevelKeys (buildWebhookPayload "hello" "question" "user@example.com"
        "User" "2025-01-01T00:00:00.000Z")).contains "message" = false ∧
    topLevelKeys (buildPersistedPayload "hello" (some "text") (some "sid-1")) =
      ["message", "attachment", "sessionid"] := by
  refine ⟨rfl, by decide, rfl⟩

/-- C4 amended: every body posted by the main pipeline has top-level
fields exactly `data, userEmail, userName, timestamp, source`, with
`message` and `context` nested under `data` and `source` fixed to
"medilens-chatbot"; the persisted variant posts
`message, attachment, sessionid`. -/
theorem c4_payload_fields (userMessage context userEmail userName timestamp : String) :
    topLevelKeys (buildWebhookPayload userMessage context userEmail userName timestamp) =
      ["data", "userEmail", "userName", "timestamp", "source"] ∧
    jsonLookup (buildWebhookPayload userMessage context userEmail userName timestamp) "data" =
      some (Json.obj [("message", Json.str userMessage), ("context", Json.str context)]) ∧
    jsonLookup (buildWebhookPayload userMessage context userEmail userName timestamp) "source" =
      some (Json.str "medilens-chatbot") ∧
    ∀ m att sid, topLevelKeys (buildPersistedPayload m att sid) =
      ["message", "attachment", "sessionid"] :=
  ⟨rfl, rfl, rfl, fun _ _ _ => rfl⟩

/-- C9: with a backend environment variable absent the client singleton
is null and every guarded helper degrades gracefully (null result after
a console warning, or a configuration error message converted to a chat
bubble) — but the App variant of `src/unnamed/part_000` dereferences the
null client (`supabase.auth.onAuthStateChange`) without a guard, so that
code path throws a TypeError instead of disabling the feature, crashing
the application and contradicting the graceful-degradation policy. -/
theorem c9_null_client_guards_but_app_listener_throws :
    mkSupabaseClient none (some "anon-key") = none ∧
    insertUserActivity (mkSupabaseClient none (some "anon-key")) (Except.ok "row-1") =
      Except.ok none ∧
    simulateLLMResponse WebhookConfig.missing
        (WebhookOutcome.success (ResponseBody.textBody "hi")) =
      Except.error notConfiguredMsg ∧
    appRegisterAuthListener (mkSupabaseClient none (some "anon-key")) =
      Except.error "TypeError: Cannot read properties of null (reading \x27auth\x27)" :=
  ⟨rfl, rfl, rfl, rfl⟩

/-- Mapping a function that fixes every element of a list is the identity. -/
theorem map_id_of_unaffected {α : Type} (f : α → α) :
    ∀ (l : List α), (∀ a ∈ l, f a = a) → l.map f = l
  | [], _ => rfl
  | a :: l, h => by
      rw [List.map_cons, h a (List.mem_cons_self a l),
        map_id_of_unaffected f l (fun b hb => h b (List.mem_cons_of_mem a hb))]

/-- C2: every failing send-message request — a missing or malformed
webhook URL, a network failure, a non-2xx status, and in particular the
30-second timeout abort — is converted into exactly one user-visible bot
error bubble appended after the user message; the handler is a total
function (no error escapes it), and the session returns to Idle
(`isLoading = false`), so a subsequent send is possible. -/
theorem c2_failure_single_error_bubble_and_idle (st : ChatState)
    (cfg : WebhookConfig) (outcome : WebhookOutcome) (e : String)
    (hinput : jsTrim st.inputMessage ≠ "")
    (hidle : st.isLoading = false)
    (hids : ∀ m ∈ st.messages, m.id < st.now)
    (hfail : simulateLLMResponse cfg outcome = Except.error e) :
    (handleSendMessage st cfg outcome).messages =
      st.messages ++ [⟨st.now, MsgKind.user, jsTrim st.inputMessage, false⟩,
                      ⟨st.now + 1, MsgKind.bot, botErrorBubble, false⟩] ∧
    (handleSendMessage st cfg outcome).isLoading = false ∧
    ∀ url, simulateLLMResponse (WebhookConfig.valid url) WebhookOutcome.timeout =
      Except.error timeoutErrorMsg := by
  have hguard : ¬ (jsTrim st.inputMessage = "" ∨ st.isLoading = true) := by
    rintro (h | h)
    · exact hinput h
    · rw [hidle] at h; exact Bool.noConfusion h
  unfold handleSendMessage
  rw [if_neg hguard]
  dsimp only
  rw [hfail]
  dsimp only [settleReply]
  refine ⟨?_, rfl, fun url => rfl⟩
  rw [List.map_append,
    map_id_of_unaffected _ st.messages
      (fun m hm => if_neg (by have := hids m hm; omega))]
  dsimp only [List.map]
  rw [if_neg (by omega), if_pos rfl]

/-- Witness for C2: in an idle session with input "hi" and an
unconfigured webhook, the failed send appends the user message and one
apology bubble and ends idle. -/
theorem c2_failure_single_error_bubble_and_idle_witness :
    (handleSendMessage ⟨[], "hi", false, 7⟩ WebhookConfig.missing
        (WebhookOutcome.success (ResponseBody.textBody "x"))).messages =
      [] ++ [⟨7, MsgKind.user, jsTrim "hi", false⟩,
             ⟨7 + 1, MsgKind.bot, botErrorBubble, false⟩] ∧
    (handleSendMessage ⟨[], "hi", false, 7⟩ WebhookConfig.missing
        (WebhookOutcome.success (ResponseBody.textBody "x"))).isLoading = false ∧
    ∀ url, simulateLLMResponse (WebhookConfig.valid url) WebhookOutcome.timeout =
      Except.error timeoutErrorMsg :=
  c2_failure_single_error_bubble_and_idle ⟨[], "hi", false, 7⟩
    WebhookConfig.missing (WebhookOutcome.success (ResponseBody.textBody "x"))
    notConfiguredMsg (by decide) rfl
    (fun m hm => absurd hm (List.not_mem_nil m)) rfl

/-- Inserting a chat message preserves store well-formedness. -/
theorem Store.WF.insert {st : Store} (h : st.WF) (sid : String) (ty : MsgKind)
    (content : String) (att : Option String) :
    (st.insertChatMessage sid ty content att).WF := by
  obtain ⟨hp, hb⟩ := h
  constructor
  · apply List.pairwise_append.mpr
    refine ⟨hp, by simp, ?_⟩
    intro a ha b hb'
    have : b = ⟨sid, ty, content, att, st.clock⟩ := by simpa using hb'
    subst this
    exact hb a ha
  · intro m hm
    rcases List.mem_append.mp hm with hm | hm
    · exact Nat.lt_succ_of_lt (hb m hm)
    · have : m = ⟨sid, ty, content, att, st.clock⟩ := by simpa using hm
      subst this
      exact Nat.lt_succ_self _

/-- On a well-formed store the ascending sort of `getChatMessages` is
the identity: replay order is insertion order. -/
theorem getChatMessages_eq_of_wf (st : Store) (h : st.WF) (sid : String) :
    st.getChatMessages sid = st.rows.filter (fun m => m.session_id = sid) := by
  unfold Store.getChatMessages
  apply List.Sorted.insertionSort_eq
  have hp : (st.rows.filter fun m => m.session_id = sid).Pairwise
      (fun a b => a.created_at < b.created_at) :=
    List.Pairwise.sublist (List.filter_sublist _) h.1
  exact hp.imp Nat.le_of_lt

/-- C7: in a session with a current id, a successful send persists the
user message and then the bot reply — exactly those two rows, in that
order, with ascending timestamps — and replaying the stored messages of
the session (`getChatMessages`, ascending by `created_at`) reproduces
the displayed transcript exactly, provided it did before the send;
the store stays well-formed. -/
theorem c7_round_trip_persisted_transcript (ls : PersistedChatState)
    (store : Store) (sid reply : String)
    (hwf : store.WF)
    (hsid : ls.currentSessionId = some sid)
    (hidle : ls.isLoading = false)
    (hmsg : messageToSend ls ≠ "")
    (hids : ∀ m ∈ ls.messages, m.id < ls.now)
    (hinv : transcript ls.messages = storedTranscript (store.getChatMessages sid)) :
    (handleSendMessagePersisted ls store (Except.ok reply)).2.rows =
      store.rows ++
        [⟨sid, MsgKind.user, messageToSend ls, some (attachmentTypeOf ls), store.clock⟩,
         ⟨sid, MsgKind.bot, reply, none, store.clock + 1⟩] ∧
    transcript (handleSendMessagePersisted ls store (Except.ok reply)).1.messages =
      storedTranscript
        ((handleSendMessagePersisted ls store (Except.ok reply)).2.getChatMessages sid) ∧
    (handleSendMessagePersisted ls store (Except.ok reply)).1.isLoading = false ∧
    (handleSendMessagePersisted ls store (Except.ok reply)).2.WF := by
  have hguard : ¬ (messageToSend ls = "" ∨ ls.isLoading = true) := by
    rintro (h | h)
    · exact hmsg h
    · rw [hidle] at h; exact Bool.noConfusion h
  unfold handleSendMessagePersisted
  rw [if_neg hguard, hsid]
  dsimp only [settleReply]
  have hwf2 : ((store.insertChatMessage sid MsgKind.user (messageToSend ls)
      (some (attachmentTypeOf ls))).insertChatMessage sid MsgKind.bot reply none).WF :=
    (hwf.insert sid MsgKind.user (messageToSend ls)
      (some (attachmentTypeOf ls))).insert sid MsgKind.bot reply none
  have hrows : ((store.insertChatMessage sid MsgKind.user (messageToSend ls)
      (some (attachmentTypeOf ls))).insertChatMessage sid MsgKind.bot reply none).rows =
      store.rows ++
        [⟨sid, MsgKind.user, messageToSend ls, some (attachmentTypeOf ls), store.clock⟩,
         ⟨sid, MsgKind.bot, reply, none, store.clock + 1⟩] := by
    simp [Store.insertChatMessage]
  refine ⟨hrows, ?_, rfl, hwf2⟩
  rw [getChatMessages_eq_of_wf _ hwf2 sid, hrows, List.filter_append]
  rw [show List.filter (fun m => decide (m.session_id = sid))
        [(⟨sid, MsgKind.user, messageToSend ls, some (attachmentTypeOf ls), store.clock⟩ : StoredMessage),
         ⟨sid, MsgKind.bot, reply, none, store.clock + 1⟩] =
      [⟨sid, MsgKind.user, messageToSend ls, some (attachmentTypeOf ls), store.clock⟩,
       ⟨sid, MsgKind.bot, reply, none, store.clock + 1⟩] by simp]
  have hfilter : storedTranscript (store.rows.filter fun m => m.session_id = sid) =
      transcript ls.messages := by
    rw [hinv, getChatMessages_eq_of_wf _ hwf sid]
  unfold storedTranscript at hfilter
  unfold storedTranscript
  rw [List.map_append,
    map_id_of_unaffected _ ls.messages
      (fun m hm => if_neg (by have := hids m hm; omega))]
  dsimp only [List.map]
  rw [if_neg (by omega), if_pos rfl, List.map_append, hfilter]
  unfold transcript
  rw [List.map_append]
  dsimp only [List.map]

/-- Witness for C7: starting from a fresh session whose store holds the
one welcome message also displayed, a successful send appends the user
row then the bot row, and replay equals the displayed transcript. -/
theorem c7_round_trip_persisted_transcript_witness :
    (handleSendMessagePersisted
        ⟨[⟨0, MsgKind.bot, "welcome", false, none⟩], "hi", "", false, some "s1", 3⟩
        ⟨[⟨"s1", MsgKind.bot, "welcome", none, 0⟩], 1⟩ (Except.ok "fine")).2.rows =
      [⟨"s1", MsgKind.bot, "welcome", none, 0⟩] ++
        [⟨"s1", MsgKind.user,
            messageToSend ⟨[⟨0, MsgKind.bot, "welcome", false, none⟩], "hi", "", false, some "s1", 3⟩,
            some (attachmentTypeOf ⟨[⟨0, MsgKind.bot, "welcome", false, none⟩], "hi", "", false, some "s1", 3⟩), 1⟩,
         ⟨"s1", MsgKind.bot, "fine", none, 1 + 1⟩] ∧
    transcript (handleSendMessagePersisted
        ⟨[⟨0, MsgKind.bot, "welcome", false, none⟩], "hi", "", false, some "s1", 3⟩
        ⟨[⟨"s1", MsgKind.bot, "welcome", none, 0⟩], 1⟩ (Except.ok "fine")).1.messages =
      storedTranscript ((handleSendMessagePersisted
        ⟨[⟨0, MsgKind.bot, "welcome", false, none⟩], "hi", "", false, some "s1", 3⟩
        ⟨[⟨"s1", MsgKind.bot, "welcome", none, 0⟩], 1⟩ (Except.ok "fine")).2.getChatMessages "s1") ∧
    (handleSendMessagePersisted
        ⟨[⟨0, MsgKind.bot, "welcome", false, none⟩], "hi", "", false, some "s1", 3⟩
        ⟨[⟨"s1", MsgKind.bot, "welcome", none, 0⟩], 1⟩ (Except.ok "fine")).1.isLoading = false ∧
    (handleSendMessagePersisted
        ⟨[⟨0, MsgKind.bot, "welcome", false, none⟩], "hi", "", false, some "s1", 3⟩
        ⟨[⟨"s1", MsgKind.bot, "welcome", none, 0⟩], 1⟩ (Except.ok "fine")).2.WF :=
  c7_round_trip_persisted_transcript
    ⟨[⟨0, MsgKind.bot, "welcome", false, none⟩], "hi", "", false, some "s1", 3⟩
    ⟨[⟨"s1", MsgKind.bot, "welcome", none, 0⟩], 1⟩ "s1" "fine"
    ⟨by simp, by simp⟩ rfl rfl (by decide)
    (by intro m hm; simp at hm; subst hm; decide)
    (by decide)

/-- C8: typed input and extracted text are mutually exclusive inputs of
the persisted `handleSendMessage`: non-empty extracted text takes
priority as the sent content over the typed input, the extracted-text
buffer is empty once the call completes, and `handleFileUpload` stashes
extracted text while clearing the typed input. -/
theorem c8_extracted_text_priority_and_cleared (ls : PersistedChatState)
    (store : Store) (resp : Except String String)
    (hidle : ls.isLoading = false) :
    (handleSendMessagePersisted ls store resp).1.extractedText = "" ∧
    (ls.extractedText ≠ "" → messageToSend ls = ls.extractedText) ∧
    (ls.extractedText = "" → messageToSend ls = jsTrim ls.inputMessage) ∧
    (∀ t, (handleFileUpload ls t).extractedText = t ∧
      (handleFileUpload ls t).inputMessage = "") := by
  refine ⟨?_, fun h => by simp [messageToSend, h], fun h => by simp [messageToSend, h],
    fun t => ⟨rfl, rfl⟩⟩
  unfold handleSendMessagePersisted
  by_cases hc : messageToSend ls = ""
  · rw [if_pos (Or.inl hc)]
    dsimp only
    by_cases hex : ls.extractedText = ""
    · exact hex
    · exfalso
      apply hex
      unfold messageToSend at hc
      rwa [if_pos hex] at hc
  · rw [if_neg (by rintro (h | h); exact hc h; rw [hidle] at h; exact Bool.noConfusion h)]

/-- Witness for C8: with extracted text "scanned" and typed input
"typed", the extracted text is the sent content and the buffer is empty
after the send. -/
theorem c8_extracted_text_priority_and_cleared_witness :
    (handleSendMessagePersisted ⟨[], "typed", "scanned", false, none, 0⟩
        ⟨[], 0⟩ (Except.ok "ok")).1.extractedText = "" ∧
    (("scanned" : String) ≠ "" →
      messageToSend ⟨[], "typed", "scanned", false, none, 0⟩ = "scanned") ∧
    (("scanned" : String) = "" →
      messageToSend ⟨[], "typed", "scanned", false, none, 0⟩ = jsTrim "typed") ∧
    (∀ t, (handleFileUpload ⟨[], "typed", "scanned", false, none, 0⟩ t).extractedText = t ∧
      (handleFileUpload ⟨[], "typed", "scanned", false, none, 0⟩ t).inputMessage = "") :=
  c8_extracted_text_priority_and_cleared
    ⟨[], "typed", "scanned", false, none, 0⟩ ⟨[], 0⟩ (Except.ok "ok") rfl

end Medilens
